import Mathlib

/-!
Shallow embedding of the device-control and agent-session layer of the
android_world repository:
  * `android_world/env/android_world_controller.py`
    (`_has_wrapper`, `get_a11y_tree`, `AndroidWorldController.get_a11y_forest`)
  * `android_world/agents/midscene.py`
    (`MidsceneAgent.__init__`, `_init_json_rpc`, `_send_rpc_request`,
     `step`, `update_task_status`)

Effectful calls into the device or the network are replaced by oracles
(functions giving the outcome of the i-th external attempt); the embedded
functions additionally return the trace of observable events (log lines,
sleeps, attempt counts) so that properties about attempt counts and logging
can be stated.
-/

set_option maxHeartbeats 1000000

/-! ## Capability Locator: `_has_wrapper`

The Python function inspects an environment object: if it is an instance of
the target wrapper it returns `True`; otherwise, if it has an `_env`
attribute, it recurses on `env._env`; otherwise it returns `False`.
An environment handle is therefore a finite chain of links, each either
being the target wrapper type or not, and each either having a further
`_env` link or not. -/

inductive EnvChain where
  /-- a handle with no `_env` attribute (end of the wrapping chain) -/
  | last (isTarget : Bool)
  /-- a handle wrapping an inner handle via its `_env` attribute -/
  | node (isTarget : Bool) (inner : EnvChain)
deriving Repr, DecidableEq

/-- `_has_wrapper`, instrumented with the number of links inspected:
first component is the returned boolean, second the inspection count. -/
def has_wrapper_count : EnvChain → Bool × Nat
  | EnvChain.last b => (b, 1)
  | EnvChain.node true _ => (true, 1)
  | EnvChain.node false inner =>
      let p := has_wrapper_count inner
      (p.1, p.2 + 1)

/-- The boolean result of `_has_wrapper`. -/
def has_wrapper (c : EnvChain) : Bool := (has_wrapper_count c).1

/-- Number of links `_has_wrapper` inspects before returning. -/
def inspections (c : EnvChain) : Nat := (has_wrapper_count c).2

/-- Length of the wrapping chain. -/
def chainLength : EnvChain → Nat
  | EnvChain.last _ => 1
  | EnvChain.node _ inner => chainLength inner + 1

/-- Depth (0-based) of the first link that is the target wrapper,
or `none` when the target is absent from the chain. -/
def targetDepth : EnvChain → Option Nat
  | EnvChain.last b => if b then some 0 else none
  | EnvChain.node b inner =>
      if b then some 0 else (targetDepth inner).map (· + 1)

/-! ## Snapshot Fetcher: `get_a11y_tree`

The devices answers are abstracted into an oracle `FetchEnv`:
`hasA11yWrapper` is the result of the `_has_wrapper` pre-check,
`airplaneMode` the result of the airplane-mode query, and `pull i` the
outcome of the i-th call to
`env.accumulate_new_extras()['accessibility_tree'][-1]`
(`none` models the `KeyError` raised when no tree is buffered yet).
The function returns the event trace together with the result;
`Except.error` models a raised exception. -/

structure FetchEnv (α : Type) where
  hasA11yWrapper : Bool
  airplaneMode : Bool
  pull : Nat → Option α

inductive FetchEvent where
  /-- the `adb_utils.check_airplane_mode` query, with its result -/
  | airplaneCheck (modeOn : Bool)
  /-- `env.attempt_enable_networking()` -/
  | enableNetworking
  /-- the `time.sleep(1.0)` after enabling networking -/
  | networkingSleep
  /-- one snapshot pull attempt with its index and whether it succeeded -/
  | pullAttempt (idx : Nat) (ok : Bool)
  /-- the `time.sleep(sleep_duration)` after a failed pull attempt -/
  | retrySleep
deriving Repr, DecidableEq

inductive FetchError where
  /-- `ValueError`: the a11y capability wrapper is missing -/
  | valueError
  /-- `RuntimeError('Could not get a11y tree.')`: snapshot unavailable -/
  | runtimeError
deriving Repr, DecidableEq

/-- The `for _ in range(max_retries)` loop of `get_a11y_tree`: try a pull;
on success return the forest; on `KeyError` log, sleep and continue. -/
def pull_loop {α : Type} (env : FetchEnv α) (idx fuel : Nat) :
    List FetchEvent × Option α :=
  match fuel with
  | 0 => ([], none)
  | Nat.succ fuel' =>
    match env.pull idx with
    | some f => ([FetchEvent.pullAttempt idx true], some f)
    | none =>
      let rest := pull_loop env (idx + 1) fuel'
      (FetchEvent.pullAttempt idx false :: FetchEvent.retrySleep :: rest.1,
       rest.2)

/-- `get_a11y_tree(env, max_retries, sleep_duration)`.  The wrapper check
runs first; then the airplane-mode check (with remediation when it reports
on); then the retry loop; if the loop never returns a forest the call
raises `RuntimeError`. -/
def get_a11y_tree {α : Type} (env : FetchEnv α) (max_retries : Nat) :
    List FetchEvent × Except FetchError α :=
  if env.hasA11yWrapper = false then
    ([], Except.error FetchError.valueError)
  else
    let pre : List FetchEvent :=
      if env.airplaneMode then
        [FetchEvent.airplaneCheck true, FetchEvent.enableNetworking,
         FetchEvent.networkingSleep]
      else
        [FetchEvent.airplaneCheck false]
    let res := pull_loop env 0 max_retries
    (pre ++ res.1,
     match res.2 with
     | some f => Except.ok f
     | none => Except.error FetchError.runtimeError)

/-- Number of airplane-mode checks appearing in a trace. -/
def countAirplaneChecks (evs : List FetchEvent) : Nat :=
  evs.countP fun e =>
    match e with
    | FetchEvent.airplaneCheck _ => true
    | _ => false

/-- Number of snapshot pull attempts appearing in a trace. -/
def countPullAttempts (evs : List FetchEvent) : Nat :=
  evs.countP fun e =>
    match e with
    | FetchEvent.pullAttempt _ _ => true
    | _ => false

/-! ## Device Controller: `AndroidWorldController.get_a11y_forest`

`_get_a11y_forest` calls `get_a11y_tree(self._env)` with the default
`max_retries=5`.  `get_a11y_forest` tries it once; on `RuntimeError` it
calls `refresh_env()` (reconnection, swapping in a freshly constructed
handle) and retries exactly once, whose outcome propagates.  A
`ValueError` from the missing-wrapper check is not caught. -/

structure ControllerState (α : Type) where
  /-- oracle for fetches through the currently owned handle -/
  handle : FetchEnv α
  /-- oracle for fetches through the handle `refresh_env` installs -/
  freshHandle : FetchEnv α

structure ForestOutcome (α : Type) where
  /-- number of `refresh_env` reconnections performed -/
  reconnects : Nat
  /-- number of `_get_a11y_forest` fetch calls performed -/
  fetchCalls : Nat
  /-- the returned forest, or the propagated exception -/
  result : Except FetchError α

/-- `get_a11y_forest`. -/
def get_a11y_forest {α : Type} (st : ControllerState α) : ForestOutcome α :=
  match (get_a11y_tree st.handle 5).2 with
  | Except.ok f =>
      { reconnects := 0, fetchCalls := 1, result := Except.ok f }
  | Except.error FetchError.runtimeError =>
      { reconnects := 1, fetchCalls := 2,
        result := (get_a11y_tree st.freshHandle 5).2 }
  | Except.error FetchError.valueError =>
      { reconnects := 0, fetchCalls := 1,
        result := Except.error FetchError.valueError }

/-! ## Session Client: `MidsceneAgent._send_rpc_request`

A JSON value model for request parameters and response bodies. -/

inductive Json where
  | null
  | str (s : String)
  | num (n : Int)
  /-- the empty JSON object `{}` -/
  | objNil
  /-- a JSON object with a first field `key: value` and remaining
  fields `rest` (an `objNil`/`objCons` chain) -/
  | objCons (key : String) (value : Json) (rest : Json)
deriving Repr, DecidableEq

/-- Builds a JSON object from a field list. -/
def Json.mkObj : List (String × Json) → Json
  | [] => Json.objNil
  | (k, v) :: rest => Json.objCons k v (Json.mkObj rest)

/-- Dictionary lookup on a JSON value (Python `d[k]` / `d.get(k)` on the
decoded dict); only objects have fields. -/
def Json.lookup : Json → String → Option Json
  | Json.objCons k v rest, key =>
      if k = key then some v else rest.lookup key
  | _, _ => none

/-- Whether a JSON value is an object (a Python dict). -/
def Json.isObj : Json → Bool
  | Json.objNil => true
  | Json.objCons _ _ _ => true
  | _ => false

/-- A delivered HTTP response: status code and decoded JSON body. -/
structure HttpResponse where
  status : Nat
  body : Json
deriving Repr, DecidableEq

/-- Transport oracle: `deliver i` is the outcome of the i-th (0-based)
`requests.post` call — `none` models a raised connection exception. -/
structure Transport where
  deliver : Nat → Option HttpResponse

inductive RpcLogEvent where
  /-- `"RPC Request Failed: <cause>; Retry: <n>"` with the 1-based
  attempt index `n` (the value of `request_cnt` when logged) -/
  | requestFailed (attemptIdx : Nat)
  /-- `"RPC Response: <result>"` with the decoded response body -/
  | responseLogged (body : Json)
deriving Repr, DecidableEq

inductive RpcError where
  /-- `RuntimeError` after the `while request_cnt < 3` loop ends with
  `response is None` -/
  | transportExhausted
  /-- the `requests.HTTPError` raised by `response.raise_for_status()` -/
  | httpStatusError (status : Nat)
deriving Repr, DecidableEq

/-- The `while request_cnt < 3` delivery loop: returns the failure log,
the number of delivery attempts performed, and the first delivered
response if any. -/
def deliver_loop (t : Transport) (cnt fuel : Nat) :
    List RpcLogEvent × Nat × Option HttpResponse :=
  match fuel with
  | 0 => ([], 0, none)
  | Nat.succ fuel' =>
    match t.deliver cnt with
    | some r => ([], 1, some r)
    | none =>
      let rest := deliver_loop t (cnt + 1) fuel'
      (RpcLogEvent.requestFailed (cnt + 1) :: rest.1,
       rest.2.1 + 1, rest.2.2)

/-- `_send_rpc_request`: up to 3 delivery attempts with no delay; if none
delivers, raise `RuntimeError`; otherwise `raise_for_status()` (raises for
a 4xx/5xx status) and only then log and return the decoded body.
Returns (console log, delivery attempts performed, result). -/
def send_rpc_request (t : Transport) :
    List RpcLogEvent × Nat × Except RpcError Json :=
  let d := deliver_loop t 0 3
  match d.2.2 with
  | none => (d.1, d.2.1, Except.error RpcError.transportExhausted)
  | some r =>
    if 400 ≤ r.status ∧ r.status < 600 then
      (d.1, d.2.1, Except.error (RpcError.httpStatusError r.status))
    else
      (d.1 ++ [RpcLogEvent.responseLogged r.body], d.2.1,
       Except.ok r.body)

/-- Number of `requestFailed` lines in a console log. -/
def countFailureLogs (evs : List RpcLogEvent) : Nat :=
  evs.countP fun e =>
    match e with
    | RpcLogEvent.requestFailed _ => true
    | _ => false

/-- Number of `responseLogged` lines in a console log. -/
def countResponseLogs (evs : List RpcLogEvent) : Nat :=
  evs.countP fun e =>
    match e with
    | RpcLogEvent.responseLogged _ => true
    | _ => false

/-! ## Agent Driver: `MidsceneAgent` -/

/-- The mutable fields of a `MidsceneAgent` instance that the embedded
operations read or write.  `interactionCache` stands for
`self.env.interaction_cache` (the code stores `str(...)` of the payload;
the model stores the payload itself). -/
structure AgentState where
  stepCount : Nat
  runLog : List Json
  failedStepReason : Json
  taskStatus : List (String × String)
  currentTaskName : String
  interactionCache : Json
  rpcUrl : String
deriving Repr, DecidableEq

/-- `base_agent.AgentInteractionResult`: completion flag and data dict. -/
structure AgentInteractionResult where
  done : Bool
  data : Json
deriving Repr, DecidableEq

/-- A Python exception escaping `step` (subscripting a missing key raises
`KeyError`; calling `.get` on a non-dict raises `AttributeError`; both are
modelled, with non-dict subscripting collapsed into the key-lookup
failure). -/
inductive PyError where
  | keyError (key : String)
  | attributeError
deriving Repr, DecidableEq

/-- `MidsceneAgent.step`, parameterised by the decoded response `resp`
that `_send_rpc_request("run-ai-method", ...)` returned.  Mutations made
before an exception persist, so the state is returned on every path. -/
def step (st : AgentState) (resp : Json) :
    AgentState × Except PyError AgentInteractionResult :=
  let st1 := { st with stepCount := st.stepCount + 1 }
  let st2 := { st1 with runLog := st1.runLog ++ [resp] }
  let st3 := { st2 with failedStepReason := Json.str "" }
  match resp.lookup "result" with
  | none => (st3, Except.error (PyError.keyError "result"))
  | some result =>
    match result.lookup "code" with
    | none => (st3, Except.error (PyError.keyError "code"))
    | some code =>
      if code = Json.num 1 then
        let actionRaw := (result.lookup "data").getD (Json.str "")
        let st4 := { st3 with interactionCache := actionRaw }
        (st4, Except.ok
          { done := true,
            data := Json.objCons "midscene_action_response" actionRaw
              Json.objNil })
      else
        match result.lookup "data" with
        | none => (st3, Except.error (PyError.keyError "data"))
        | some d =>
          if d.isObj then
            let reason := (d.lookup "reason").getD (Json.str "")
            let st4 := { st3 with failedStepReason := reason }
            (st4, Except.ok { done := false, data := Json.objNil })
          else (st3, Except.error PyError.attributeError)

/-- Python dict assignment `d[k] = v`. -/
def dict_set (d : List (String × String)) (k v : String) :
    List (String × String) :=
  match d with
  | [] => [(k, v)]
  | (k', v') :: rest =>
      if k' = k then (k, v) :: rest else (k', v') :: dict_set rest k v

/-- Python dict read `d.get(k)`. -/
def dict_get (d : List (String × String)) (k : String) : Option String :=
  match d with
  | [] => none
  | (k', v') :: rest => if k' = k then some v' else dict_get rest k

/-- An outbound JSON-RPC request: method name and params dict.  (The
envelope also carries `jsonrpc:"2.0"` and a clock-derived `id`.) -/
structure RpcRequest where
  method : String
  params : Json
deriving Repr, DecidableEq

/-- `MidsceneAgent.update_task_status(status='Failed')`: records the
status in `task_status`, then sends the terminate-agent request.  `none`
for `status` models calling without an argument (Python default
`'Failed'`).  Returns the new state and the request sent. -/
def update_task_status (st : AgentState) (status : Option String) :
    AgentState × RpcRequest :=
  let s := status.getD "Failed"
  let ts := dict_set st.taskStatus st.currentTaskName s
  let st' := { st with taskStatus := ts }
  (st',
   { method := "terminate-agent",
     params := Json.mkObj
       [("id", Json.str st.currentTaskName),
        ("userTaskStatus",
         Json.str ((dict_get ts st.currentTaskName).getD "Failed")),
        ("agentStepError", st.failedStepReason)] })

/-- `MidsceneAgent._init_json_rpc`: reads `MIDSCENE_BENCH_RPC_URL` from
the environment; a missing or empty (falsy) value raises `RuntimeError`.
Returns the url on success. -/
def init_json_rpc (environ : String → Option String) :
    Except String String :=
  match environ "MIDSCENE_BENCH_RPC_URL" with
  | none =>
      Except.error "MIDSCENE_BENCH_RPC_URL environment variable not set."
  | some url =>
      if url = "" then
        Except.error "MIDSCENE_BENCH_RPC_URL environment variable not set."
      else Except.ok url

/-- `MidsceneAgent.__init__`: initialises the instance fields and calls
`_init_json_rpc`, which raises when the url is absent.  The constructor
performs no RPC; the first component is the list of requests it sends,
which is empty on both paths.  (`current_task_name` is only assigned later
by `start_new_task`; it is modelled as `""` initially.) -/
def midscene_agent_init (environ : String → Option String) :
    List RpcRequest × Except String AgentState :=
  match init_json_rpc environ with
  | Except.error e => ([], Except.error e)
  | Except.ok url =>
      ([], Except.ok
        { stepCount := 0, runLog := [], failedStepReason := Json.str "",
          taskStatus := [], currentTaskName := "",
          interactionCache := Json.str "", rpcUrl := url })

/-! ## Helper lemmas -/

/-- The retry loop of `get_a11y_tree` performs no airplane-mode checks. -/
theorem pull_loop_no_airplane_checks {α : Type} (env : FetchEnv α) :
    ∀ fuel idx, countAirplaneChecks (pull_loop env idx fuel).1 = 0 := by
  intro fuel
  induction fuel with
  | zero => intro idx; simp [pull_loop, countAirplaneChecks]
  | succ n ih =>
    intro idx
    cases h : env.pull idx with
    | some f => simp [pull_loop, h, countAirplaneChecks]
    | none =>
      simp only [pull_loop, h, countAirplaneChecks, List.countP_cons] at *
      simp [ih]

/-- If the first `r` pulls starting at `idx` fail and the next succeeds,
the retry loop returns that snapshot after exactly `r + 1` attempts. -/
theorem pull_loop_first_success {α : Type} (env : FetchEnv α) :
    ∀ (r : Nat) (f : α) (idx fuel : Nat),
      (∀ j, j < r → env.pull (idx + j) = none) →
      env.pull (idx + r) = some f → r < fuel →
      (pull_loop env idx fuel).2 = some f ∧
      countPullAttempts (pull_loop env idx fuel).1 = r + 1 := by
  intro r
  induction r with
  | zero =>
    intro f idx fuel _ hsome hlt
    cases fuel with
    | zero => omega
    | succ fuel' =>
      rw [Nat.add_zero] at hsome
      simp [pull_loop, hsome, countPullAttempts]
  | succ r ih =>
    intro f idx fuel hnone hsome hlt
    cases fuel with
    | zero => omega
    | succ fuel' =>
      have h0 : env.pull idx = none := by
        have h := hnone 0 (Nat.succ_pos r)
        simpa using h
      have hshift : ∀ j, j < r → env.pull (idx + 1 + j) = none := by
        intro j hj
        have h := hnone (j + 1) (by omega)
        rwa [show idx + (j + 1) = idx + 1 + j by omega] at h
      have hsome' : env.pull (idx + 1 + r) = some f := by
        rwa [show idx + (r + 1) = idx + 1 + r by omega] at hsome
      have hrec := ih f (idx + 1) fuel' hshift hsome' (by omega)
      simp only [pull_loop, h0, countPullAttempts, List.countP_cons] at *
      simp [hrec.1, hrec.2]

/-- If all `fuel` pulls starting at `idx` fail, the retry loop returns no
snapshot after exactly `fuel` attempts. -/
theorem pull_loop_exhausts {α : Type} (env : FetchEnv α) :
    ∀ (fuel idx : Nat),
      (∀ j, j < fuel → env.pull (idx + j) = none) →
      (pull_loop env idx fuel).2 = none ∧
      countPullAttempts (pull_loop env idx fuel).1 = fuel := by
  intro fuel
  induction fuel with
  | zero => intro idx _; simp [pull_loop, countPullAttempts]
  | succ n ih =>
    intro idx hnone
    have h0 : env.pull idx = none := by
      have h := hnone 0 (Nat.succ_pos n)
      simpa using h
    have hshift : ∀ j, j < n → env.pull (idx + 1 + j) = none := by
      intro j hj
      have h := hnone (j + 1) (by omega)
      rwa [show idx + (j + 1) = idx + 1 + j by omega] at h
    have hrec := ih (idx + 1) hshift
    simp only [pull_loop, h0, countPullAttempts, List.countP_cons] at *
    simp [hrec.1, hrec.2]

/-- The pre-flight part of a `get_a11y_tree` trace contributes no pull
attempts, so the attempt count of the whole trace is that of the loop. -/
theorem get_a11y_tree_trace {α : Type} (env : FetchEnv α) (maxr : Nat)
    (h : env.hasA11yWrapper = true) :
    countAirplaneChecks (get_a11y_tree env maxr).1 =
      1 + countAirplaneChecks (pull_loop env 0 maxr).1 ∧
    countPullAttempts (get_a11y_tree env maxr).1 =
      countPullAttempts (pull_loop env 0 maxr).1 ∧
    (get_a11y_tree env maxr).1.head? =
      some (FetchEvent.airplaneCheck env.airplaneMode) := by
  cases hair : env.airplaneMode <;>
    simp [get_a11y_tree, h, hair, countAirplaneChecks, countPullAttempts,
      List.countP_append, List.countP_cons, Nat.add_comm]

/-! ## Claim theorems: Capability Locator -/

/-- C6: for every finite acyclic wrapper chain, `_has_wrapper` returns
true exactly when the target wrapper occurs in the chain, inspecting
exactly `k + 1` links when the target first occurs at depth `k`, and
returns false after inspecting all `n` links of a target-free chain of
length `n`.  (The embedded function is a pure query by construction,
matching the side-effect-free Python function.) -/
theorem has_wrapper_locates (c : EnvChain) :
    (∀ k, targetDepth c = some k →
      has_wrapper c = true ∧ inspections c = k + 1)
    ∧ (targetDepth c = none →
      has_wrapper c = false ∧ inspections c = chainLength c) := by
  induction c with
  | last b =>
    cases b <;>
      simp [targetDepth, has_wrapper, inspections, has_wrapper_count,
        chainLength]
  | node b inner ih =>
    cases b with
    | true =>
      simp [targetDepth, has_wrapper, inspections, has_wrapper_count]
    | false =>
      constructor
      · intro k hk
        simp only [targetDepth, Bool.false_eq_true, if_false] at hk
        rcases Option.map_eq_some'.mp hk with ⟨k', hk', rfl⟩
        have h := (ih.1 k' hk')
        simp [has_wrapper, inspections, has_wrapper_count] at h ⊢
        exact ⟨h.1, by omega⟩
      · intro hk
        simp only [targetDepth, Bool.false_eq_true, if_false] at hk
        rcases Option.map_eq_none'.mp hk with hnone
        have h := ih.2 hnone
        simp [has_wrapper, inspections, has_wrapper_count, chainLength]
          at h ⊢
        exact ⟨h.1, by omega⟩

/-- Witness for C6: a chain of length 3 whose second link is the target
wrapper is located in exactly 2 inspections. -/
theorem has_wrapper_locates_witness :
    has_wrapper
        (EnvChain.node false (EnvChain.node true (EnvChain.last false)))
        = true ∧
    inspections
        (EnvChain.node false (EnvChain.node true (EnvChain.last false)))
        = 2 :=
  (has_wrapper_locates
    (EnvChain.node false (EnvChain.node true (EnvChain.last false)))).1
    1 (by decide)

/-! ## Claim theorems: Snapshot Fetcher -/

/-- A fetch oracle on which every snapshot pull fails while airplane mode
is reported on. -/
def c1Env : FetchEnv Nat :=
  { hasA11yWrapper := true, airplaneMode := true, pull := fun _ => none }

/-- C1 counterexample: in a `get_a11y_tree` call with `max_retries = 2`
whose two snapshot attempts both run (and fail), the airplane-mode
check-and-remediate step is executed only once, not once before each of
the two attempts: the claimed once-per-attempt execution is false. -/
theorem airplane_check_per_attempt_cex :
    countPullAttempts (get_a11y_tree c1Env 2).1 = 2 ∧
    countAirplaneChecks (get_a11y_tree c1Env 2).1 = 1 ∧
    countAirplaneChecks (get_a11y_tree c1Env 2).1 ≠ 2 := by decide

/-- C1 (amended): the airplane-mode pre-flight check and networking
remediation run exactly once per `get_a11y_tree` call — before the first
snapshot attempt, as the first event of the trace — not once per snapshot
attempt. -/
theorem airplane_check_once_per_call {α : Type} (env : FetchEnv α)
    (maxr : Nat) (h : env.hasA11yWrapper = true) :
    countAirplaneChecks (get_a11y_tree env maxr).1 = 1 ∧
    (get_a11y_tree env maxr).1.head? =
      some (FetchEvent.airplaneCheck env.airplaneMode) := by
  have ht := get_a11y_tree_trace env maxr h
  refine ⟨?_, ht.2.2⟩
  rw [ht.1, pull_loop_no_airplane_checks]

/-- Witness for C1's amended theorem at a concrete oracle and
`max_retries = 2`. -/
theorem airplane_check_once_per_call_witness :
    countAirplaneChecks (get_a11y_tree c1Env 2).1 = 1 ∧
    (get_a11y_tree c1Env 2).1.head? =
      some (FetchEvent.airplaneCheck c1Env.airplaneMode) :=
  airplane_check_once_per_call c1Env 2 rfl

/-- C2: for a `get_a11y_tree` call whose first `r < max_retries` snapshot
pulls raise the not-yet-available `KeyError` and whose `(r+1)`-th pull
succeeds, the call returns that snapshot after exactly `r + 1` attempts;
if all pulls fail, it raises `RuntimeError` after exactly `max_retries`
attempts (hence no more than `max_retries`). -/
theorem get_a11y_tree_retry {α : Type} (env : FetchEnv α) (maxr : Nat)
    (h : env.hasA11yWrapper = true) :
    (∀ r f, r < maxr → (∀ i, i < r → env.pull i = none) →
      env.pull r = some f →
      (get_a11y_tree env maxr).2 = Except.ok f ∧
      countPullAttempts (get_a11y_tree env maxr).1 = r + 1)
    ∧ ((∀ i, i < maxr → env.pull i = none) →
      (get_a11y_tree env maxr).2 = Except.error FetchError.runtimeError ∧
      countPullAttempts (get_a11y_tree env maxr).1 = maxr) := by
  have htrace := get_a11y_tree_trace env maxr h
  have hres : (get_a11y_tree env maxr).2 =
      match (pull_loop env 0 maxr).2 with
      | some f => Except.ok f
      | none => Except.error FetchError.runtimeError := by
    simp [get_a11y_tree, h]
  constructor
  · intro r f hr hnone hsome
    have hl := pull_loop_first_success env r f 0 maxr
      (by intro j hj; simpa using hnone j hj) (by simpa using hsome) hr
    refine ⟨?_, ?_⟩
    · rw [hres, hl.1]
    · rw [htrace.2.1, hl.2]
  · intro hnone
    have hl := pull_loop_exhausts env maxr 0
      (by intro j hj; simpa using hnone j hj)
    refine ⟨?_, ?_⟩
    · rw [hres, hl.1]
    · rw [htrace.2.1, hl.2]

/-- A fetch oracle whose first pull fails and whose second succeeds. -/
def c2Env : FetchEnv Nat :=
  { hasA11yWrapper := true, airplaneMode := false,
    pull := fun i => if i = 1 then some 42 else none }

/-- Witness for C2 with `max_retries = 3`: one failure then success gives
the snapshot in exactly 2 attempts. -/
theorem get_a11y_tree_retry_witness :
    (get_a11y_tree c2Env 3).2 = Except.ok 42 ∧
    countPullAttempts (get_a11y_tree c2Env 3).1 = 2 :=
  (get_a11y_tree_retry c2Env 3 rfl).1 1 42 (by decide) (by decide) rfl

/-! ## Claim theorems: Device Controller -/

/-- C3: when the inner fetch of `get_a11y_forest` raises the
snapshot-unavailable `RuntimeError`, exactly one reconnection
(`refresh_env`) is triggered and the fetch is retried exactly once more
(two fetch calls in total); the call's result is exactly the outcome of
the post-reconnect fetch, so a successful retry returns the
post-reconnect snapshot without a second reconnection and a failing
retry propagates to the caller. -/
theorem get_a11y_forest_reconnect {α : Type} (st : ControllerState α)
    (h : (get_a11y_tree st.handle 5).2 =
      Except.error FetchError.runtimeError) :
    (get_a11y_forest st).reconnects = 1 ∧
    (get_a11y_forest st).fetchCalls = 2 ∧
    (get_a11y_forest st).result = (get_a11y_tree st.freshHandle 5).2 := by
  simp [get_a11y_forest, h]

/-- A controller whose current handle never yields a snapshot and whose
post-reconnect handle yields one immediately. -/
def c3Ctrl : ControllerState Nat :=
  { handle :=
      { hasA11yWrapper := true, airplaneMode := false,
        pull := fun _ => none },
    freshHandle :=
      { hasA11yWrapper := true, airplaneMode := false,
        pull := fun _ => some 7 } }

/-- Witness for C3 at a concrete controller state. -/
theorem get_a11y_forest_reconnect_witness :
    (get_a11y_forest c3Ctrl).reconnects = 1 ∧
    (get_a11y_forest c3Ctrl).fetchCalls = 2 ∧
    (get_a11y_forest c3Ctrl).result =
      (get_a11y_tree c3Ctrl.freshHandle 5).2 :=
  get_a11y_forest_reconnect c3Ctrl rfl

/-! ## Claim theorems: Session Client -/

/-- The delivery loop performs at most `fuel` attempts. -/
theorem deliver_loop_attempts_le (t : Transport) :
    ∀ fuel cnt, (deliver_loop t cnt fuel).2.1 ≤ fuel := by
  intro fuel
  induction fuel with
  | zero => intro cnt; simp [deliver_loop]
  | succ n ih =>
    intro cnt
    cases h : t.deliver cnt with
    | some r => simp [deliver_loop, h]
    | none =>
      simp only [deliver_loop, h]
      have := ih (cnt + 1)
      omega

/-- The delivery loop writes only `requestFailed` lines. -/
theorem deliver_loop_no_response_logs (t : Transport) :
    ∀ fuel cnt, countResponseLogs (deliver_loop t cnt fuel).1 = 0 := by
  intro fuel
  induction fuel with
  | zero => intro cnt; simp [deliver_loop, countResponseLogs]
  | succ n ih =>
    intro cnt
    cases h : t.deliver cnt with
    | some r => simp [deliver_loop, h, countResponseLogs]
    | none =>
      simp only [deliver_loop, h, countResponseLogs, List.countP_cons]
        at *
      simp [ih]

/-- C4: `_send_rpc_request` attempts delivery at most 3 times (with no
backoff between attempts in the source loop); it stops at the first
successful delivery, logging each of the `k` preceding failures with its
1-based attempt index; when the first two deliveries fail and the third
delivers a response with a non-error HTTP status, that response's body is
returned and the log holds exactly the two failure lines (indices 1
and 2) and the response line; a delivered response with an HTTP-level
error status is surfaced as a request failure without further delivery
attempts; when all three deliveries fail, `RuntimeError`
(transport exhausted) is raised. -/
theorem send_rpc_request_retry (t : Transport) :
    (send_rpc_request t).2.1 ≤ 3
    ∧ (∀ k r, k < 3 → (∀ i, i < k → t.deliver i = none) →
        t.deliver k = some r →
        (send_rpc_request t).2.1 = k + 1 ∧
        countFailureLogs (send_rpc_request t).1 = k)
    ∧ (∀ r, t.deliver 0 = none → t.deliver 1 = none →
        t.deliver 2 = some r → ¬(400 ≤ r.status ∧ r.status < 600) →
        (send_rpc_request t).2.2 = Except.ok r.body ∧
        (send_rpc_request t).1 =
          [RpcLogEvent.requestFailed 1, RpcLogEvent.requestFailed 2,
           RpcLogEvent.responseLogged r.body])
    ∧ (∀ r, t.deliver 0 = none → t.deliver 1 = none →
        t.deliver 2 = some r → 400 ≤ r.status ∧ r.status < 600 →
        (send_rpc_request t).2.2 =
          Except.error (RpcError.httpStatusError r.status) ∧
        countFailureLogs (send_rpc_request t).1 = 2 ∧
        (send_rpc_request t).2.1 = 3)
    ∧ ((∀ i, i < 3 → t.deliver i = none) →
        (send_rpc_request t).2.2 =
          Except.error RpcError.transportExhausted ∧
        (send_rpc_request t).2.1 = 3) := by
  refine ⟨?_, ?_, ?_, ?_, ?_⟩
  · have h := deliver_loop_attempts_le t 3 0
    simp only [send_rpc_request]
    cases hd : (deliver_loop t 0 3).2.2 with
    | none => simpa [hd] using h
    | some r =>
      by_cases hs : 400 ≤ r.status ∧ r.status < 600 <;>
        simp [hd, hs] <;> omega
  · intro k r hk hnone hsome
    interval_cases k
    · simp [send_rpc_request, deliver_loop, hsome, countFailureLogs]
      by_cases hs : 400 ≤ r.status ∧ r.status < 600 <;>
        simp [hs, countFailureLogs]
    · have h0 := hnone 0 (by omega)
      simp only [send_rpc_request, deliver_loop, h0, hsome]
      by_cases hs : 400 ≤ r.status ∧ r.status < 600 <;>
        simp [hs, countFailureLogs]
    · have h0 := hnone 0 (by omega)
      have h1 := hnone 1 (by omega)
      simp only [send_rpc_request, deliver_loop, h0, h1, hsome]
      by_cases hs : 400 ≤ r.status ∧ r.status < 600 <;>
        simp [hs, countFailureLogs]
  · intro r h0 h1 h2 hs
    simp [send_rpc_request, deliver_loop, h0, h1, h2, hs]
  · intro r h0 h1 h2 hs
    simp [send_rpc_request, deliver_loop, h0, h1, h2, hs,
      countFailureLogs]
  · intro hnone
    have h0 := hnone 0 (by omega)
    have h1 := hnone 1 (by omega)
    have h2 := hnone 2 (by omega)
    simp [send_rpc_request, deliver_loop, h0, h1, h2]

/-- A transport whose first two deliveries raise connection errors and
whose third delivers a 200 response. -/
def c4Transport : Transport :=
  { deliver := fun i =>
      if i = 2 then some { status := 200, body := Json.str "ok" }
      else none }

/-- Witness for C4: fail, fail, deliver with status 200 returns the third
body and logs exactly the two failures. -/
theorem send_rpc_request_retry_witness :
    (send_rpc_request c4Transport).2.2 = Except.ok (Json.str "ok") ∧
    (send_rpc_request c4Transport).1 =
      [RpcLogEvent.requestFailed 1, RpcLogEvent.requestFailed 2,
       RpcLogEvent.responseLogged (Json.str "ok")] :=
  (send_rpc_request_retry c4Transport).2.2.1
    { status := 200, body := Json.str "ok" } rfl rfl rfl (by decide)

/-- A transport delivering a 500-status response on the first attempt. -/
def c5Transport : Transport :=
  { deliver := fun _ => some { status := 500, body := Json.str "oops" } }

/-- C5 counterexample: a response is delivered on the first attempt
(`deliver 0` is `some`), the call raises the HTTP status error from
`raise_for_status()`, and no response is ever logged — refuting the claim
that every delivered response, including one carrying an HTTP-level error
status, is logged before the call returns or raises. -/
theorem response_logged_cex :
    (c5Transport.deliver 0).isSome = true ∧
    (send_rpc_request c5Transport).2.2 =
      Except.error (RpcError.httpStatusError 500) ∧
    countResponseLogs (send_rpc_request c5Transport).1 = 0 :=
  ⟨rfl, rfl, rfl⟩

/-- C5 (amended): every delivered response whose HTTP status passes
`raise_for_status()` is logged (as its decoded body, the last log line)
before being returned; a delivered response carrying an HTTP-level error
status (4xx/5xx) makes the call raise without the response being logged,
and a call that raises for exhausted transport logs no response
either. -/
theorem response_logged {t : Transport} :
    (∀ b, (send_rpc_request t).2.2 = Except.ok b →
      (send_rpc_request t).1.getLast? =
        some (RpcLogEvent.responseLogged b))
    ∧ (∀ s, (send_rpc_request t).2.2 =
        Except.error (RpcError.httpStatusError s) →
      countResponseLogs (send_rpc_request t).1 = 0)
    ∧ ((send_rpc_request t).2.2 =
        Except.error RpcError.transportExhausted →
      countResponseLogs (send_rpc_request t).1 = 0) := by
  have hno := deliver_loop_no_response_logs t 3 0
  simp only [send_rpc_request]
  cases hd : (deliver_loop t 0 3).2.2 with
  | none =>
    refine ⟨?_, ?_, ?_⟩ <;> intros <;> simp_all
  | some r =>
    by_cases hs : 400 ≤ r.status ∧ r.status < 600
    · refine ⟨?_, ?_, ?_⟩ <;> intros <;> simp_all
    · refine ⟨fun b hb => ?_, fun s hs' => ?_, fun h => ?_⟩ <;>
        simp only [hs, if_false, reduceIte] at *
      · have hb' : b = r.body := by simpa using hb.symm
        subst hb'
        simp [List.getLast?_concat]
      · simp at hs'
      · simp at h

/-- A transport delivering a 200 response immediately. -/
def c5OkTransport : Transport :=
  { deliver := fun _ => some { status := 200, body := Json.str "fine" } }

/-- Witness for C5's amended theorem: a delivered 200 response is logged
as the last log line before being returned. -/
theorem response_logged_witness :
    (send_rpc_request c5OkTransport).1.getLast? =
      some (RpcLogEvent.responseLogged (Json.str "fine")) :=
  response_logged.1 (Json.str "fine") rfl

/-! ## Claim theorems: Agent Driver -/

/-- After the Python dict assignment `d[k] = v`, `d.get(k)` is `v`. -/
theorem dict_get_dict_set (d : List (String × String)) (k v : String) :
    dict_get (dict_set d k v) k = some v := by
  induction d with
  | nil => simp [dict_set, dict_get]
  | cons p rest ih =>
    obtain ⟨k', v'⟩ := p
    by_cases h : k' = k
    · simp [dict_set, dict_get, h]
    · simp [dict_set, dict_get, h, ih]

/-- The `agentStepError` field of the terminate-agent request is the
state's recorded last failure reason. -/
theorem update_task_status_params_error (st : AgentState)
    (status : Option String) :
    ((update_task_status st status).2).params.lookup "agentStepError" =
      some st.failedStepReason := rfl

/-- The response `{result: {code: 1, data: {"x": 1}}}`. -/
def okResp : Json :=
  Json.mkObj [("result", Json.mkObj
    [("code", Json.num 1), ("data", Json.mkObj [("x", Json.num 1)])])]

/-- The response `{result: {code: 0, data: {"reason": "not found"}}}`. -/
def failResp : Json :=
  Json.mkObj [("result", Json.mkObj
    [("code", Json.num 0),
     ("data", Json.mkObj [("reason", Json.str "not found")])])]

/-- C7: on a response whose result code is 1, `step` reports completion
carrying the result's data payload (under the
`midscene_action_response` key of the reported data dict); on any other
code it extracts the `reason` string from the result's data dict
(tolerating its absence via `.get`), records it as the last failure
reason, and reports non-completion with an empty payload; the model
issues exactly one request per `step` call, so the step is not retried.
In particular `{result:{code:1, data:{"x":1}}}` yields completion with
payload `{"x":1}` and `{result:{code:0, data:{"reason":"not found"}}}`
yields non-completion with empty payload and `"not found"` recorded. -/
theorem step_outcome (st : AgentState) :
    (∀ resp result, resp.lookup "result" = some result →
      result.lookup "code" = some (Json.num 1) →
      (step st resp).2 = Except.ok
        { done := true,
          data := Json.objCons "midscene_action_response"
            ((result.lookup "data").getD (Json.str "")) Json.objNil })
    ∧ (∀ resp result code d, resp.lookup "result" = some result →
      result.lookup "code" = some code → code ≠ Json.num 1 →
      result.lookup "data" = some d → d.isObj = true →
      (step st resp).2 =
        Except.ok { done := false, data := Json.objNil } ∧
      ((step st resp).1).failedStepReason =
        (d.lookup "reason").getD (Json.str ""))
    ∧ ((step st okResp).2 = Except.ok
        { done := true,
          data := Json.objCons "midscene_action_response"
            (Json.mkObj [("x", Json.num 1)]) Json.objNil })
    ∧ ((step st failResp).2 =
        Except.ok { done := false, data := Json.objNil } ∧
      ((step st failResp).1).failedStepReason =
        Json.str "not found") := by
  refine ⟨?_, ?_, rfl, rfl, rfl⟩
  · intro resp result h1 h2
    simp [step, h1, h2]
  · intro resp result code d h1 h2 hne h3 hobj
    simp [step, h1, h2, hne, h3, hobj]

/-- A freshly initialised agent state with a started task. -/
def st0 : AgentState :=
  { stepCount := 0, runLog := [], failedStepReason := Json.str "",
    taskStatus := [], currentTaskName := "Task-1-test",
    interactionCache := Json.str "", rpcUrl := "http://localhost:3000" }

/-- Witness for C7: the code-1 case of `step_outcome` at a concrete
state and concrete response. -/
theorem step_outcome_witness :
    (step st0 okResp).2 = Except.ok
      { done := true,
        data := Json.objCons "midscene_action_response"
          (((Json.mkObj [("code", Json.num 1),
            ("data", Json.mkObj [("x", Json.num 1)])]).lookup
            "data").getD (Json.str "")) Json.objNil } :=
  (step_outcome st0).1 okResp
    (Json.mkObj [("code", Json.num 1),
      ("data", Json.mkObj [("x", Json.num 1)])]) rfl rfl

/-- C8: `update_task_status` sends a terminate-agent request carrying the
session identifier, the final status — `"Failed"` when no status argument
is supplied (the Python default) — and the last recorded failure reason
as `agentStepError`. -/
theorem update_task_status_request (st : AgentState)
    (status : Option String) :
    (update_task_status st status).2 =
      { method := "terminate-agent",
        params := Json.mkObj
          [("id", Json.str st.currentTaskName),
           ("userTaskStatus", Json.str (status.getD "Failed")),
           ("agentStepError", st.failedStepReason)] } := by
  simp [update_task_status, dict_get_dict_set]

/-- C9: when `MIDSCENE_BENCH_RPC_URL` is absent from the environment,
construction of the agent fails with `RuntimeError` inside
`_init_json_rpc`, and the constructor sends no request. -/
theorem init_requires_rpc_url (environ : String → Option String)
    (h : environ "MIDSCENE_BENCH_RPC_URL" = none) :
    (midscene_agent_init environ).2 = Except.error
      "MIDSCENE_BENCH_RPC_URL environment variable not set." ∧
    (midscene_agent_init environ).1 = [] := by
  simp [midscene_agent_init, init_json_rpc, h]

/-- An environment with no variables set. -/
def c9Environ : String → Option String := fun _ => none

/-- Witness for C9 at the empty environment. -/
theorem init_requires_rpc_url_witness :
    (midscene_agent_init c9Environ).2 = Except.error
      "MIDSCENE_BENCH_RPC_URL environment variable not set." ∧
    (midscene_agent_init c9Environ).1 = [] :=
  init_requires_rpc_url c9Environ rfl

/-- C10: `step` resets the recorded last failure reason to `""` right
after receiving the response: a step that reports completion leaves it
empty — so a subsequent `update_task_status` sends an empty
`agentStepError` — a step that reports non-completion leaves it equal to
the reason extracted from that step's response, and a step that raises
leaves it empty. -/
theorem step_failure_reason (st : AgentState) (resp : Json) :
    (∀ r, (step st resp).2 = Except.ok r →
      (r.done = true →
        ((step st resp).1).failedStepReason = Json.str "" ∧
        (∀ status,
          ((update_task_status (step st resp).1 status).2).params.lookup
            "agentStepError" = some (Json.str "")))
      ∧ (r.done = false →
        ((step st resp).1).failedStepReason =
          (((((resp.lookup "result").getD Json.null).lookup
            "data").getD Json.null).lookup "reason").getD
            (Json.str "")))
    ∧ (∀ e, (step st resp).2 = Except.error e →
      ((step st resp).1).failedStepReason = Json.str "") := by
  rcases hres : resp.lookup "result" with _ | result
  · simp [step, hres]
  · rcases hcode : result.lookup "code" with _ | code
    · simp [step, hres, hcode]
    · by_cases h1 : code = Json.num 1
      · subst h1
        constructor
        · intro r hr
          simp only [step, hres, hcode] at hr
          simp only [reduceIte] at hr
          injection hr with hr2
          subst hr2
          constructor
          · intro _
            refine ⟨by simp [step, hres, hcode], fun status => ?_⟩
            rw [update_task_status_params_error]
            simp [step, hres, hcode]
          · intro hdone
            simp at hdone
        · intro e he
          simp [step, hres, hcode] at he
      · rcases hdata : result.lookup "data" with _ | d
        · simp [step, hres, hcode, h1, hdata]
        · by_cases hobj : d.isObj
          · constructor
            · intro r hr
              simp only [step, hres, hcode, h1, hdata, hobj] at hr
              simp only [if_neg h1, reduceIte] at hr
              injection hr with hr2
              subst hr2
              constructor
              · intro hdone
                simp at hdone
              · intro _
                simp [step, hres, hcode, h1, hdata, hobj]
            · intro e he
              simp [step, hres, hcode, h1, hdata, hobj] at he
          · simp [step, hres, hcode, h1, hdata, hobj]

/-- Witness for C10: a completed step at a concrete state and response
leaves an empty failure reason and a terminate request with an empty
`agentStepError`. -/
theorem step_failure_reason_witness :
    ((step st0 okResp).1).failedStepReason = Json.str "" ∧
    ((update_task_status (step st0 okResp).1 none).2).params.lookup
      "agentStepError" = some (Json.str "") :=
  let h := ((step_failure_reason st0 okResp).1
    { done := true,
      data := Json.objCons "midscene_action_response"
        (Json.mkObj [("x", Json.num 1)]) Json.objNil } rfl).1 rfl
  ⟨h.1, h.2 none⟩
